import Mathlib

/-!
# Verification of the OCPP 1.6 charge-point handler layer

Shallow embedding of `app/handlers/charge_point.py` (voltaro-api): the
persistence store is a record of lists of rows, each handler is a pure
function from a store (plus the message fields and the current time) to a
response value, an updated store, and the parameters of any detached
follow-up job it spawns.  Python floats are modelled as rationals,
timestamps as integers, and the SQLAlchemy query helpers as functions on
lists; `scalar_one_or_none`, which raises when more than one row matches,
is modelled with `Except`.
-/

namespace Voltaro

/-- Outcome of SQLAlchemy's `scalar_one_or_none` on the rows matched by a
query: `none` for no row, the row if unique, and an exception (caught by the
handlers' `except` blocks) when several rows match. -/
def scalarOneOrNone {α : Type} : List α → Except Unit (Option α)
  | [] => .ok none
  | [a] => .ok (some a)
  | _ :: _ :: _ => .error ()

/-- Row of the `id_tags` table (model `IdTag`). -/
structure IdTag where
  id : Nat
  tag : String
  status : String
  expiry_date : Option Int
  parent_id_tag : Option String
  deriving DecidableEq

/-- Row of the `sessions` table (model `Session`). -/
structure Session where
  id : Nat
  transaction_id : Int
  charge_point_id : String
  id_tag_id : Nat
  connector_id : Int
  meter_start : Option Int
  meter_stop : Option Int
  start_timestamp : Int
  stop_timestamp : Option Int
  status : String
  stop_reason : Option String
  energy_consumed : Option ℚ
  reservation_id : Option Int
  deriving DecidableEq

/-- Row of the `meter_values` table (model `MeterValue`). -/
structure MeterValue where
  session_id : Option Nat
  timestamp : Int
  value : ℚ
  unit : String
  measurand : String
  phase : Option String
  location : String
  context : String
  format : String
  deriving DecidableEq

/-- Row of the `connector_status` table (model `ConnectorStatus`).
`created_at` is the insertion stamp the handlers order by. -/
structure ConnectorStatus where
  charge_point_id : String
  connector_id : Int
  status : String
  error_code : String
  timestamp : Int
  info : Option String
  availability : Option String
  created_at : Nat
  deriving DecidableEq

/-- Row of the `charge_points` table (model `ChargePoint`); only the fields
the embedded handlers read. -/
structure ChargePointRow where
  id : String
  is_online : Bool
  deriving DecidableEq

/-- The persistence store.  `connector_statuses` is kept newest-first
(insertion prepends and stamps `created_at` with the monotone counter
`next_row_id`), so scanning from the front is the embedding of
`ORDER BY created_at DESC`. -/
structure Store where
  id_tags : List IdTag
  sessions : List Session
  meter_values : List MeterValue
  connector_statuses : List ConnectorStatus
  charge_points : List ChargePointRow
  next_row_id : Nat
  deriving DecidableEq

/-- The `idTagInfo` dictionary returned to the charge point. -/
structure IdTagInfo where
  status : String
  expiryDate : Option Int
  parentIdTag : Option String
  deriving DecidableEq

/-- `_get_id_tag_info`: unknown tag (or a lookup exception) gives Invalid;
a recorded expiry in the past gives Expired with the expiry echoed;
otherwise the stored status together with the optional fields. -/
def get_id_tag_info (st : Store) (id_tag : String) (now : Int) : IdTagInfo :=
  match scalarOneOrNone (st.id_tags.filter (fun t => t.tag = id_tag)) with
  | .error _ => ⟨"Invalid", none, none⟩
  | .ok none => ⟨"Invalid", none, none⟩
  | .ok (some tag_record) =>
    match tag_record.expiry_date with
    | some e =>
      if e < now then ⟨"Expired", some e, none⟩
      else ⟨tag_record.status, some e, tag_record.parent_id_tag⟩
    | none => ⟨tag_record.status, none, tag_record.parent_id_tag⟩

/-- `_generate_transaction_id`: draw from the stream of `randint` outputs
until a value free in the `sessions` table is found; `none` models
exhausting the stream, i.e. the unbounded retry loop never returning. -/
def generate_transaction_id (sessions : List Session) : List Int → Option Int
  | [] => none
  | r :: rest =>
    if sessions.any (fun s => s.transaction_id = r) then
      generate_transaction_id sessions rest
    else some r

/-- Empty OCPP acknowledgment (`call_result.MeterValues()`,
`call_result.StatusNotification()`). -/
inductive EmptyAck
  | mk
  deriving DecidableEq

/-- A raw JSON `value` field of a sampled reading: `numeric` stands for any
value Python's `float()` accepts (a number or a numeric string), `text` for a
string raising `ValueError`; a missing field raises `TypeError`. -/
inductive RawVal
  | numeric (q : ℚ)
  | text (s : String)
  deriving DecidableEq

/-- `float(value)` as used on sampled readings: `none` when the coercion
raises (`ValueError`/`TypeError`). -/
def floatOfValue : Option RawVal → Option ℚ
  | some (.numeric q) => some q
  | _ => none

/-- One entry of a `sampledValue` array; `none` fields were not supplied. -/
structure SampledValue where
  value : Option RawVal
  context : Option String
  format : Option String
  measurand : Option String
  phase : Option String
  location : Option String
  unit : Option String
  deriving DecidableEq

/-- One block of the `meterValue` / `transactionData` array. -/
structure MeterValBlock where
  timestamp : Option Int
  sampledValue : List SampledValue
  deriving DecidableEq

/-- Processing of one sampled reading (shared body of the loops in
`on_meter_values` and `on_stop_transaction`): apply field defaults, coerce
the value, and skip the reading (`none`) when the coercion fails. -/
def store_sampled_value (session_id : Option Nat) (meter_timestamp : Int)
    (default_context : String) (sv : SampledValue) : Option MeterValue :=
  match floatOfValue sv.value with
  | none => none
  | some numeric_value =>
    some { session_id := session_id, timestamp := meter_timestamp,
           value := numeric_value,
           unit := sv.unit.getD "Wh",
           measurand := sv.measurand.getD "Energy.Active.Import.Register",
           phase := sv.phase,
           location := sv.location.getD "Outlet",
           context := sv.context.getD default_context,
           format := sv.format.getD "Raw" }

/-- Processing of one meter-value block: resolve the block timestamp
(current time when absent) and keep the readings that coerce. -/
def store_meter_block (session_id : Option Nat) (now : Int)
    (default_context : String) (block : MeterValBlock) : List MeterValue :=
  (block.sampledValue).filterMap
    (store_sampled_value session_id (block.timestamp.getD now) default_context)

/-- The `if transaction_id:` session lookup of `on_meter_values` (0 is falsy
in Python, so transaction id 0 skips the lookup like an absent one). -/
def lookup_session_truthy (st : Store) : Option Int → Except Unit (Option Session)
  | some tid =>
    if tid ≠ 0 then
      scalarOneOrNone (st.sessions.filter (fun s => s.transaction_id = tid))
    else .ok none
  | none => .ok none

/-- `on_meter_values`: look up the owning session by transaction id when one
was given, persist each coercible reading with periodic-sampling defaults,
and always acknowledge (also when the lookup raised). -/
def on_meter_values (st : Store) (connector_id : Int)
    (transaction_id : Option Int) (meter_value : List MeterValBlock)
    (now : Int) : EmptyAck × Store :=
  match lookup_session_truthy st transaction_id with
  | .error _ => (.mk, st)
  | .ok session_record =>
    let new_rows := (meter_value.map
      (store_meter_block (session_record.map (fun s => s.id)) now
        "Sample.Periodic")).flatten
    (.mk, { st with meter_values := st.meter_values ++ new_rows })

/-- Response of `StopTransaction` (`call_result.StopTransaction`). -/
structure StopTransactionRes where
  id_tag_info : Option IdTagInfo
  deriving DecidableEq

/-- `on_stop_transaction`: look up the session by transaction id alone (no
charge-point scoping — `cp_id`, the calling charge point, is used by the
handler only for logging and plays no role); when found set meter stop, stop
timestamp, status Completed and stop reason, and when a meter-start was
recorded compute `energy_consumed = (meter_stop - meter_start) / 1000` kWh;
persist any accompanying transaction data with end-of-transaction defaults;
resolve a supplied id tag into the response; always acknowledge. -/
def on_stop_transaction (st : Store) (cp_id : String)
    (transaction_id : Int) (timestamp : Int)
    (meter_stop : Int) (id_tag : Option String) (reason : Option String)
    (transaction_data : List MeterValBlock) (now : Int) :
    StopTransactionRes × Store :=
  match scalarOneOrNone
      (st.sessions.filter (fun s => s.transaction_id = transaction_id)) with
  | .error _ => (⟨none⟩, st)
  | .ok session_record =>
    let sessions' :=
      match session_record with
      | none => st.sessions
      | some sr =>
        st.sessions.map (fun s =>
          if s.id = sr.id then
            { s with meter_stop := some meter_stop,
                     stop_timestamp := some timestamp,
                     status := "Completed",
                     stop_reason := some (reason.getD "Local"),
                     energy_consumed :=
                       match s.meter_start with
                       | some ms => some (((meter_stop - ms : Int) : ℚ) / 1000)
                       | none => s.energy_consumed }
          else s)
    let new_rows := (transaction_data.map
      (store_meter_block (session_record.map (fun s => s.id)) now
        "Transaction.End")).flatten
    (⟨id_tag.map (fun t => get_id_tag_info st t now)⟩,
     { st with sessions := sessions',
               meter_values := st.meter_values ++ new_rows })

/-- Response of `StartTransaction`. -/
structure StartTransactionRes where
  transaction_id : Int
  id_tag_info : IdTagInfo
  deriving DecidableEq

/-- `on_start_transaction`: resolve authorization; when not Accepted return
transaction id 0 with the resolved info and no session; when the tag record
vanished (or the lookup raised) demote to Invalid with id 0; otherwise
allocate a fresh transaction id and create an Active session.  `rands` is
the stream of `random.randint(100000, 999999)` outputs; the overall `none`
models the allocation loop never returning. -/
def on_start_transaction (st : Store) (cp_id : String) (connector_id : Int)
    (id_tag : String) (meter_start : Int) (timestamp : Int)
    (reservation_id : Option Int) (now : Int) (rands : List Int) :
    Option (StartTransactionRes × Store) :=
  if (get_id_tag_info st id_tag now).status = "Accepted" then
    match scalarOneOrNone (st.id_tags.filter (fun t => t.tag = id_tag)) with
    | .error _ => some (⟨0, ⟨"Invalid", none, none⟩⟩, st)
    | .ok none => some (⟨0, ⟨"Invalid", none, none⟩⟩, st)
    | .ok (some tag_record) =>
      match generate_transaction_id st.sessions rands with
      | none => none
      | some transaction_id =>
        let new_session : Session :=
          { id := st.next_row_id, transaction_id := transaction_id,
            charge_point_id := cp_id, id_tag_id := tag_record.id,
            connector_id := connector_id, meter_start := some meter_start,
            meter_stop := none, start_timestamp := timestamp,
            stop_timestamp := none, status := "Active", stop_reason := none,
            energy_consumed := none, reservation_id := reservation_id }
        some (⟨transaction_id, get_id_tag_info st id_tag now⟩,
          { st with sessions := new_session :: st.sessions,
                    next_row_id := st.next_row_id + 1 })
  else some (⟨0, get_id_tag_info st id_tag now⟩, st)

/-- Parameters captured by the detached task
`_send_automatic_stop_transaction` spawned on an accepted remote stop. -/
structure AutoStopJob where
  transaction_id : Int
  connector_id : Int
  meter_start : Int
  deriving DecidableEq

/-- Response of `RemoteStopTransaction` together with the detached follow-up
job, if one was spawned. -/
structure RemoteStopRes where
  status : String
  job : Option AutoStopJob
  deriving DecidableEq

/-- `on_remote_stop_transaction`: Accepted only when a session for this
charge point with this transaction id exists and is Active, in which case
one automatic-stop task is spawned; every other path is Rejected with no
task.  The handler writes nothing to the store. -/
def on_remote_stop_transaction (st : Store) (cp_id : String)
    (transaction_id : Int) : RemoteStopRes :=
  match scalarOneOrNone (st.sessions.filter
      (fun s => s.transaction_id = transaction_id ∧
        s.charge_point_id = cp_id)) with
  | .error _ => ⟨"Rejected", none⟩
  | .ok none => ⟨"Rejected", none⟩
  | .ok (some session_record) =>
    if session_record.status ≠ "Active" then ⟨"Rejected", none⟩
    else ⟨"Accepted", some ⟨transaction_id, session_record.connector_id,
      session_record.meter_start.getD 0⟩⟩

/-- `ORDER BY timestamp DESC LIMIT 1` over the rows matching a query (used
by `on_remote_start_transaction`); on equal timestamps the row first in the
table is kept. -/
def latest_by_timestamp (rows : List ConnectorStatus) : Option ConnectorStatus :=
  rows.foldl (fun acc r =>
    match acc with
    | none => some r
    | some a => if a.timestamp < r.timestamp then some r else some a) none

/-- `on_remote_start_transaction`: Rejected when the tag does not resolve to
Accepted, when the charge point is unknown or offline, or when a named
connector's latest recorded status is outside {Available, Preparing};
otherwise Accepted (in particular when no status row was ever recorded for
the named connector, and when no connector is named). -/
def on_remote_start_transaction (st : Store) (cp_id : String) (id_tag : String)
    (connector_id : Option Int) (now : Int) : String :=
  let id_tag_info := get_id_tag_info st id_tag now
  if id_tag_info.status ≠ "Accepted" then "Rejected"
  else
    match st.charge_points.find? (fun c => c.id = cp_id) with
    | none => "Rejected"
    | some charge_point =>
      if !charge_point.is_online then "Rejected"
      else
        match connector_id with
        | some cid =>
          match latest_by_timestamp (st.connector_statuses.filter
              (fun c => c.charge_point_id = cp_id ∧ c.connector_id = cid)) with
          | some latest_status =>
            if latest_status.status ∉ (["Available", "Preparing"] : List String)
            then "Rejected" else "Accepted"
          | none => "Accepted"
        | none => "Accepted"

/-- `ORDER BY created_at DESC LIMIT 1` over the connector-status rows of one
(charge point, connector) pair: the list is kept newest-first, so the first
matching row is the latest one. -/
def latest_connector_status (st : Store) (cp_id : String) (connector_id : Int) :
    Option ConnectorStatus :=
  (st.connector_statuses.filter
    (fun c => c.charge_point_id = cp_id ∧ c.connector_id = connector_id)).head?

/-- Set the `availability` field of the first (i.e. latest) row matching the
(charge point, connector) pair, leaving every other row unchanged. -/
def set_availability_first (cp_id : String) (connector_id : Int) (ty : String) :
    List ConnectorStatus → List ConnectorStatus
  | [] => []
  | c :: rest =>
    if c.charge_point_id = cp_id ∧ c.connector_id = connector_id then
      { c with availability := some ty } :: rest
    else c :: set_availability_first cp_id connector_id ty rest

/-- Body of the per-target-connector loop of `on_change_availability`:
update the latest status row's availability, or create a fresh row when the
connector has none. -/
def apply_availability (st : Store) (cp_id : String) (connector_id : Int)
    (ty : String) (now : Int) : Store :=
  match latest_connector_status st cp_id connector_id with
  | some _ =>
    { st with connector_statuses :=
        set_availability_first cp_id connector_id ty st.connector_statuses }
  | none =>
    { st with
      connector_statuses :=
        { charge_point_id := cp_id, connector_id := connector_id,
          status := (if ty = "Operative" then "Available" else "Unavailable"),
          error_code := "NoError", timestamp := now, info := none,
          availability := some ty,
          created_at := st.next_row_id } :: st.connector_statuses,
      next_row_id := st.next_row_id + 1 }

/-- Response of `ChangeAvailability` together with the arguments of the
detached `_send_availability_status_notifications` task, if one was
spawned. -/
structure ChangeAvailabilityRes where
  status : String
  job : Option (List Int × String)
  deriving DecidableEq

/-- The target set of a `ChangeAvailability` request: connector 0 means the
whole station, i.e. connectors 0 and 1. -/
def availability_targets (connector_id : Int) : List Int :=
  if connector_id = 0 then [0, 1] else [1]

/-- The `already_in_state` loop of `on_change_availability`: every target
connector's latest recorded row exists and already carries the requested
availability. -/
def already_in_availability (st : Store) (cp_id : String) (ty : String)
    (targets : List Int) : Bool :=
  targets.all (fun t =>
    match latest_connector_status st cp_id t with
    | some current_status => decide (current_status.availability = some ty)
    | none => false)

/-- `on_change_availability`: reject connector ids outside {0, 1}; answer
Scheduled without touching the store while connector 1 has an Active session
(the lookup raising on several such sessions is caught and answered
Rejected); answer Accepted as a no-op when every target connector already
has the requested availability; otherwise write the availability to every
target connector and spawn one notification task. -/
def on_change_availability (st : Store) (cp_id : String) (connector_id : Int)
    (ty : String) (now : Int) : ChangeAvailabilityRes × Store :=
  if connector_id < 0 ∨ connector_id > 1 then (⟨"Rejected", none⟩, st)
  else
    match scalarOneOrNone (st.sessions.filter
        (fun s => s.charge_point_id = cp_id ∧ s.connector_id = 1 ∧
          s.status = "Active")) with
    | .error _ => (⟨"Rejected", none⟩, st)
    | .ok (some _) => (⟨"Scheduled", none⟩, st)
    | .ok none =>
      if already_in_availability st cp_id ty
          (availability_targets connector_id) then (⟨"Accepted", none⟩, st)
      else
        (⟨"Accepted", some (availability_targets connector_id, ty)⟩,
          (availability_targets connector_id).foldl
            (fun acc t => apply_availability acc cp_id t ty now) st)

/-- One outbound `StatusNotification` command issued through the transport
by a detached task. -/
structure StatusNotificationMsg where
  connector_id : Int
  error_code : String
  status : String
  info : String
  deriving DecidableEq

/-- `_send_availability_status_notifications`: the outbound notifications
the detached task issues, one per changed connector, Available for Operative
and Unavailable for Inoperative. -/
def send_availability_status_notifications (connector_ids : List Int)
    (availability_type : String) : List StatusNotificationMsg :=
  connector_ids.map (fun connector_id =>
    if availability_type = "Operative" then
      ⟨connector_id, "NoError", "Available", "Connector set to operative"⟩
    else
      ⟨connector_id, "NoError", "Unavailable", "Connector set to inoperative"⟩)

/-- `on_status_notification`: append one connector-status row (the
`availability` column is left at its default, not set by this handler) and
acknowledge. -/
def on_status_notification (st : Store) (cp_id : String) (connector_id : Int)
    (error_code : String) (status : String) (timestamp : Option Int)
    (info : Option String) (now : Int) : EmptyAck × Store :=
  let status_record : ConnectorStatus :=
    { charge_point_id := cp_id, connector_id := connector_id, status := status,
      error_code := error_code, timestamp := timestamp.getD now, info := info,
      availability := none, created_at := st.next_row_id }
  (.mk, { st with
      connector_statuses := status_record :: st.connector_statuses,
      next_row_id := st.next_row_id + 1 })

/-- One inbound operation of the core, with all its message fields. -/
inductive Op
  | startTx (cp_id : String) (connector_id : Int) (id_tag : String)
      (meter_start : Int) (timestamp : Int) (reservation_id : Option Int)
      (now : Int) (rands : List Int)
  | stopTx (cp_id : String) (transaction_id : Int) (timestamp : Int)
      (meter_stop : Int) (id_tag : Option String) (reason : Option String)
      (transaction_data : List MeterValBlock) (now : Int)
  | meterVals (connector_id : Int) (transaction_id : Option Int)
      (meter_value : List MeterValBlock) (now : Int)
  | statusNotif (cp_id : String) (connector_id : Int) (error_code : String)
      (status : String) (timestamp : Option Int) (info : Option String)
      (now : Int)
  | remoteStart (cp_id : String) (id_tag : String)
      (connector_id : Option Int) (now : Int)
  | remoteStop (cp_id : String) (transaction_id : Int)
  | changeAvail (cp_id : String) (connector_id : Int) (ty : String) (now : Int)

/-- Effect of one inbound operation on the store (responses discarded; a
diverging transaction-id allocation leaves the store as is, since nothing
was committed). -/
def step (st : Store) : Op → Store
  | .startTx cp c tag ms ts rid now rands =>
    match on_start_transaction st cp c tag ms ts rid now rands with
    | some (_, st') => st'
    | none => st
  | .stopTx cp tid ts ms tag reason td now =>
    (on_stop_transaction st cp tid ts ms tag reason td now).2
  | .meterVals c tid mv now => (on_meter_values st c tid mv now).2
  | .statusNotif cp c ec s ts i now =>
    (on_status_notification st cp c ec s ts i now).2
  | .remoteStart _ _ _ _ => st
  | .remoteStop _ _ => st
  | .changeAvail cp c ty now => (on_change_availability st cp c ty now).2

/-- Run a sequence of inbound operations. -/
def run (st : Store) : List Op → Store
  | [] => st
  | op :: ops => run (step st op) ops

/-- Transaction id is a key of the `sessions` table: no two rows share it. -/
def TidUnique (st : Store) : Prop :=
  (st.sessions.map (fun s => s.transaction_id)).Nodup

/-! ## Helper lemmas -/

/-- An id returned by the allocation loop is free: no existing session row
carries it. -/
theorem generate_transaction_id_fresh (sessions : List Session) :
    ∀ (rands : List Int) (r : Int),
      generate_transaction_id sessions rands = some r →
      ∀ s ∈ sessions, s.transaction_id ≠ r := by
  intro rands
  induction rands with
  | nil => intro r h; simp [generate_transaction_id] at h
  | cons a rest ih =>
    intro r h s hs
    simp only [generate_transaction_id] at h
    split at h
    · exact ih r h s hs
    · rename_i hcond
      cases h
      intro heq
      exact hcond (List.any_eq_true.mpr ⟨s, hs, by simp [heq]⟩)

/-- A successful `on_start_transaction` preserves uniqueness of transaction
ids: the freshly allocated id was free. -/
theorem on_start_transaction_tidUnique {st : Store} {cp_id : String}
    {connector_id : Int} {id_tag : String} {meter_start timestamp : Int}
    {reservation_id : Option Int} {now : Int} {rands : List Int}
    {res : StartTransactionRes} {st' : Store}
    (hrun : on_start_transaction st cp_id connector_id id_tag meter_start
      timestamp reservation_id now rands = some (res, st'))
    (h : TidUnique st) : TidUnique st' := by
  unfold on_start_transaction at hrun
  split at hrun
  · -- Accepted: split on the tag-record lookup
    split at hrun
    · cases hrun; exact h
    · cases hrun; exact h
    · -- record found: allocation either diverges or returns a fresh id
      rename_i tag_record heq
      split at hrun
      · cases hrun
      · rename_i tid hgen
        cases hrun
        unfold TidUnique at h ⊢
        simp only [List.map_cons, List.nodup_cons]
        refine ⟨?_, h⟩
        intro hmem
        rcases List.mem_map.mp hmem with ⟨s, hs, hseq⟩
        exact generate_transaction_id_fresh st.sessions rands tid hgen s hs hseq
  · cases hrun; exact h

/-- `on_stop_transaction` preserves the multiset of transaction ids: the
update keeps each row's id. -/
theorem on_stop_transaction_tids (st : Store) (cp_id : String)
    (transaction_id timestamp meter_stop : Int) (id_tag : Option String)
    (reason : Option String)
    (transaction_data : List MeterValBlock) (now : Int) :
    ((on_stop_transaction st cp_id transaction_id timestamp meter_stop id_tag
        reason transaction_data now).2.sessions.map
          (fun s => s.transaction_id)) =
      st.sessions.map (fun s => s.transaction_id) := by
  unfold on_stop_transaction
  split
  · rfl
  · rename_i sessOpt heq
    cases sessOpt with
    | none => rfl
    | some sr =>
      simp only [List.map_map]
      apply List.map_congr_left
      intro s _
      simp only [Function.comp_apply]
      split <;> rfl

/-- `on_meter_values` leaves the `sessions` table unchanged. -/
theorem on_meter_values_sessions (st : Store) (connector_id : Int)
    (transaction_id : Option Int) (meter_value : List MeterValBlock)
    (now : Int) :
    (on_meter_values st connector_id transaction_id meter_value now).2.sessions
      = st.sessions := by
  unfold on_meter_values
  split <;> rfl

/-- The per-connector availability update leaves the `sessions` table
unchanged. -/
theorem apply_availability_sessions (st : Store) (cp_id : String)
    (connector_id : Int) (ty : String) (now : Int) :
    (apply_availability st cp_id connector_id ty now).sessions = st.sessions := by
  unfold apply_availability
  split <;> rfl

/-- Folding the availability update over any target list leaves the
`sessions` table unchanged. -/
theorem foldl_apply_availability_sessions (l : List Int) (st : Store)
    (cp_id : String) (ty : String) (now : Int) :
    (l.foldl (fun acc t => apply_availability acc cp_id t ty now) st).sessions
      = st.sessions := by
  induction l generalizing st with
  | nil => rfl
  | cons t rest ih =>
    simp only [List.foldl_cons]
    rw [ih, apply_availability_sessions]

/-- `on_change_availability` leaves the `sessions` table unchanged. -/
theorem on_change_availability_sessions (st : Store) (cp_id : String)
    (connector_id : Int) (ty : String) (now : Int) :
    (on_change_availability st cp_id connector_id ty now).2.sessions
      = st.sessions := by
  unfold on_change_availability
  split
  · rfl
  · split
    · rfl
    · rfl
    · split
      · rfl
      · exact foldl_apply_availability_sessions _ st cp_id ty now

/-- Every single inbound operation preserves uniqueness of transaction
ids. -/
theorem step_tidUnique (st : Store) (op : Op) (h : TidUnique st) :
    TidUnique (step st op) := by
  cases op with
  | startTx cp c tag ms ts rid now rands =>
    simp only [step]
    split
    · rename_i res st' hrun
      exact on_start_transaction_tidUnique hrun h
    · exact h
  | stopTx cp tid ts ms tag reason td now =>
    unfold TidUnique at h ⊢
    simpa only [step, on_stop_transaction_tids] using h
  | meterVals c tid mv now =>
    unfold TidUnique at h ⊢
    simpa only [step, on_meter_values_sessions] using h
  | statusNotif cp c ec s ts i now => exact h
  | remoteStart cp tag c now => exact h
  | remoteStop cp tid => exact h
  | changeAvail cp c ty now =>
    unfold TidUnique at h ⊢
    simpa only [step, on_change_availability_sessions] using h

/-! ## Claim theorems -/

/-- C1: transaction-id allocation draws a random value and retries on
collision until the value is free in the `sessions` table, so after every
sequence of inbound operations starting from a store whose transaction ids
are pairwise distinct (in particular the empty store), transaction id is
still a globally unique key of the Session store — the ids handed out to
the startTransaction calls of the sequence, same or different charge
points, are pairwise distinct. -/
theorem transaction_ids_globally_unique (st : Store) (ops : List Op)
    (h : TidUnique st) : TidUnique (run st ops) := by
  induction ops generalizing st with
  | nil => exact h
  | cons op rest ih => exact ih (step st op) (step_tidUnique st op h)

/-- A known Accepted credential, an online charge point, and the empty
remaining store, for concrete runs. -/
def demo_store : Store :=
  { id_tags := [⟨1, "TAG1", "Accepted", none, none⟩],
    sessions := [], meter_values := [], connector_statuses := [],
    charge_points := [⟨"CP1", true⟩], next_row_id := 2 }

/-- Witness for C1: two start-transaction calls on the demo store, the
second drawing a colliding id first, keep transaction ids unique. -/
theorem transaction_ids_globally_unique_witness :
    TidUnique (run demo_store
      [.startTx "CP1" 1 "TAG1" 100 0 none 0 [100001],
       .startTx "CP2" 1 "TAG1" 200 5 none 5 [100001, 100002]]) :=
  transaction_ids_globally_unique demo_store _ (by unfold TidUnique; decide)

/-- A filter whose predicate pins down the value of a key has at most one
result on a table where that key is duplicate-free. -/
theorem filter_keyed_length_le_one {α β : Type} [DecidableEq β] (l : List α)
    (key : α → β) (hnd : (l.map key).Nodup) (p : α → Bool) (b : β)
    (hp : ∀ a, p a = true → key a = b) : (l.filter p).length ≤ 1 := by
  have hnd2 : ((l.filter p).map key).Nodup :=
    hnd.sublist ((List.filter_sublist l).map key)
  match hm : l.filter p with
  | [] => simp
  | [a] => simp
  | a :: c :: t =>
    exfalso
    have ha : key a = b := hp a (List.of_mem_filter
      (hm ▸ List.mem_cons_self a (c :: t)))
    have hc : key c = b := hp c (List.of_mem_filter
      (hm ▸ List.mem_cons_of_mem a (List.mem_cons_self c t)))
    rw [hm] at hnd2
    simp only [List.map_cons, List.nodup_cons, List.mem_cons] at hnd2
    exact hnd2.1 (Or.inl (ha.trans hc.symm))

/-- A list of length at most one is empty or a singleton. -/
theorem eq_nil_or_singleton_of_length_le_one {α : Type} (l : List α)
    (h : l.length ≤ 1) : l = [] ∨ ∃ a, l = [a] := by
  match l with
  | [] => exact Or.inl rfl
  | [a] => exact Or.inr ⟨a, rfl⟩
  | a :: c :: t => simp at h

/-- When `on_stop_transaction` finds the (unique) session with the given
transaction id, the store it returns contains that row rewritten with the
stop data and the computed energy. -/
theorem stop_completes_session (st : Store) (cp_id : String)
    (transaction_id timestamp meter_stop : Int) (id_tag : Option String)
    (reason : Option String)
    (transaction_data : List MeterValBlock) (now : Int) (sr : Session)
    (hfind : st.sessions.filter
      (fun s => s.transaction_id = transaction_id) = [sr]) :
    { sr with meter_stop := some meter_stop,
              stop_timestamp := some timestamp,
              status := "Completed",
              stop_reason := some (reason.getD "Local"),
              energy_consumed :=
                match sr.meter_start with
                | some ms => some (((meter_stop - ms : Int) : ℚ) / 1000)
                | none => sr.energy_consumed }
      ∈ (on_stop_transaction st cp_id transaction_id timestamp meter_stop
          id_tag reason transaction_data now).2.sessions := by
  have hmem : sr ∈ st.sessions :=
    List.mem_of_mem_filter (hfind ▸ List.mem_singleton_self sr)
  unfold on_stop_transaction
  rw [hfind]
  simp only [scalarOneOrNone]
  exact List.mem_map.mpr ⟨sr, hmem, by rw [if_pos rfl]⟩

/-- C2: when `stopTransaction` finds the (unique) session with the given
transaction id, it rewrites that row with meter stop, stop timestamp,
status Completed and the stop reason, and sets `energy_consumed` to exactly
`(meterStop - meterStart) / 1000` kWh when a meter start was recorded —
with no lower-bound check, so a meter stop below the meter start gives a
negative value — and leaves `energy_consumed` untouched when the meter
start is absent. -/
theorem stopTransaction_energy (st : Store) (cp_id : String)
    (transaction_id timestamp meter_stop : Int) (id_tag : Option String)
    (reason : Option String)
    (transaction_data : List MeterValBlock) (now : Int) (sr : Session)
    (hfind : st.sessions.filter
      (fun s => s.transaction_id = transaction_id) = [sr]) :
    { sr with meter_stop := some meter_stop,
              stop_timestamp := some timestamp,
              status := "Completed",
              stop_reason := some (reason.getD "Local"),
              energy_consumed :=
                match sr.meter_start with
                | some ms => some (((meter_stop - ms : Int) : ℚ) / 1000)
                | none => sr.energy_consumed }
      ∈ (on_stop_transaction st cp_id transaction_id timestamp meter_stop
          id_tag reason transaction_data now).2.sessions :=
  stop_completes_session st cp_id transaction_id timestamp meter_stop id_tag
    reason transaction_data now sr hfind

/-- The store after a successful example start transaction: meter start 100
on connector 1 of CP1, transaction id 100001. -/
def demo_store_started : Store :=
  run demo_store [.startTx "CP1" 1 "TAG1" 100 0 none 0 [100001]]

/-- Witness for C2: `startTransaction(meterStart=100)` followed by
`stopTransaction(meterStop=1100)` yields `energyConsumed = 1.0` kWh on the
Completed row. -/
theorem stopTransaction_energy_witness :
    ∃ sr' ∈ (on_stop_transaction demo_store_started "CP1" 100001 20 1100 none
        none [] 20).2.sessions,
      sr'.status = "Completed" ∧ sr'.energy_consumed = some (1 : ℚ) :=
  ⟨_, stopTransaction_energy demo_store_started "CP1" 100001 20 1100 none none
      [] 20
      ⟨2, 100001, "CP1", 1, 1, some 100, none, 0, none, "Active", none, none,
        none⟩ (by decide),
    by simp⟩

/-- C3: `remoteStop` answers Accepted exactly when a session of the calling
charge point with the given transaction id exists with status Active (the
store having transaction id as a unique key, which every reachable store
does); its answers are only Accepted or Rejected; and whenever it answers
Rejected no detached follow-up task is spawned. -/
theorem remoteStop_accepted_iff_active (st : Store) (cp_id : String)
    (transaction_id : Int) (hwf : TidUnique st) :
    ((on_remote_stop_transaction st cp_id transaction_id).status = "Accepted"
      ↔ ∃ s ∈ st.sessions, s.transaction_id = transaction_id ∧
          s.charge_point_id = cp_id ∧ s.status = "Active") ∧
    ((on_remote_stop_transaction st cp_id transaction_id).status = "Accepted"
      ∨ (on_remote_stop_transaction st cp_id transaction_id).status
          = "Rejected") ∧
    ((on_remote_stop_transaction st cp_id transaction_id).status = "Rejected"
      → (on_remote_stop_transaction st cp_id transaction_id).job = none) := by
  have hlen := filter_keyed_length_le_one st.sessions
    (fun s => s.transaction_id) hwf
    (fun s => decide (s.transaction_id = transaction_id ∧
      s.charge_point_id = cp_id))
    transaction_id
    (fun a ha => (of_decide_eq_true ha).1)
  rcases eq_nil_or_singleton_of_length_le_one _ hlen with hm | ⟨a, hm⟩
  · have hnone : ∀ s ∈ st.sessions, ¬(s.transaction_id = transaction_id ∧
        s.charge_point_id = cp_id ∧ s.status = "Active") := by
      intro s hs hcontra
      have hsf : s ∈ st.sessions.filter (fun s =>
          decide (s.transaction_id = transaction_id ∧
            s.charge_point_id = cp_id)) :=
        List.mem_filter.mpr ⟨hs, decide_eq_true ⟨hcontra.1, hcontra.2.1⟩⟩
      rw [hm] at hsf
      cases hsf
    have hres : on_remote_stop_transaction st cp_id transaction_id
        = ⟨"Rejected", none⟩ := by
      unfold on_remote_stop_transaction
      rw [hm]
      rfl
    rw [hres]
    refine ⟨?_, Or.inr rfl, fun _ => rfl⟩
    constructor
    · intro habs; exact absurd habs (by decide)
    · rintro ⟨s, hs, h1, h2, h3⟩; exact absurd ⟨h1, h2, h3⟩ (hnone s hs)
  · have hamem0 : a ∈ st.sessions.filter (fun s =>
        decide (s.transaction_id = transaction_id ∧
          s.charge_point_id = cp_id)) := by
      rw [hm]; exact List.mem_singleton_self a
    have hamem : a ∈ st.sessions := List.mem_of_mem_filter hamem0
    have haprop : a.transaction_id = transaction_id ∧
        a.charge_point_id = cp_id :=
      of_decide_eq_true (List.mem_filter.mp hamem0).2
    have huniq : ∀ s ∈ st.sessions, s.transaction_id = transaction_id →
        s.charge_point_id = cp_id → s = a := by
      intro s hs h1 h2
      have hsf : s ∈ st.sessions.filter (fun s =>
          decide (s.transaction_id = transaction_id ∧
            s.charge_point_id = cp_id)) :=
        List.mem_filter.mpr ⟨hs, decide_eq_true ⟨h1, h2⟩⟩
      rw [hm] at hsf
      simpa using hsf
    by_cases hact : a.status = "Active"
    · have hres : on_remote_stop_transaction st cp_id transaction_id
          = ⟨"Accepted", some ⟨transaction_id, a.connector_id,
              a.meter_start.getD 0⟩⟩ := by
        unfold on_remote_stop_transaction
        rw [hm]
        simp only [scalarOneOrNone]
        rw [if_neg (by simp [hact])]
      rw [hres]
      refine ⟨?_, Or.inl rfl, fun habs => absurd habs (by simp)⟩
      constructor
      · intro _; exact ⟨a, hamem, haprop.1, haprop.2, hact⟩
      · intro _; rfl
    · have hres : on_remote_stop_transaction st cp_id transaction_id
          = ⟨"Rejected", none⟩ := by
        unfold on_remote_stop_transaction
        rw [hm]
        simp only [scalarOneOrNone]
        rw [if_pos hact]
      rw [hres]
      refine ⟨?_, Or.inr rfl, fun _ => rfl⟩
      constructor
      · intro habs; exact absurd habs (by decide)
      · rintro ⟨s, hs, h1, h2, h3⟩
        exact absurd ((huniq s hs h1 h2) ▸ h3) hact

/-- Witness for C3: on the demo store with its one Active session,
`remoteStop` from the owning charge point for the live transaction id
satisfies the characterization. -/
theorem remoteStop_accepted_iff_active_witness :
    ((on_remote_stop_transaction demo_store_started "CP1" 100001).status
        = "Accepted"
      ↔ ∃ s ∈ demo_store_started.sessions, s.transaction_id = 100001 ∧
          s.charge_point_id = "CP1" ∧ s.status = "Active") ∧
    ((on_remote_stop_transaction demo_store_started "CP1" 100001).status
        = "Accepted"
      ∨ (on_remote_stop_transaction demo_store_started "CP1" 100001).status
          = "Rejected") ∧
    ((on_remote_stop_transaction demo_store_started "CP1" 100001).status
        = "Rejected"
      → (on_remote_stop_transaction demo_store_started "CP1" 100001).job
          = none) :=
  remoteStop_accepted_iff_active demo_store_started "CP1" 100001
    (by unfold TidUnique; decide)

/-- A store where connector 1 of CP1 carries two Active sessions — reachable,
since `on_start_transaction` creates a session for any accepted tag with no
check on the connector's state. -/
def two_active_store : Store :=
  { id_tags := [⟨1, "TAG1", "Accepted", none, none⟩],
    sessions :=
      [⟨2, 100001, "CP1", 1, 1, some 100, none, 0, none, "Active", none, none,
        none⟩,
       ⟨3, 100002, "CP1", 1, 1, some 200, none, 0, none, "Active", none, none,
        none⟩],
    meter_values := [], connector_statuses := [],
    charge_points := [⟨"CP1", true⟩], next_row_id := 4 }

/-- C4 counterexample: while connector 1 has an Active session (here two of
them, a reachable state), `changeAvailability(connector=1)` does NOT answer
Scheduled: the `scalar_one_or_none` active-session lookup raises
`MultipleResultsFound`, the handler's `except` block catches it and answers
Rejected. -/
theorem changeAvailability_two_active_rejected :
    (∃ s ∈ two_active_store.sessions, s.charge_point_id = "CP1" ∧
      s.connector_id = 1 ∧ s.status = "Active") ∧
    (on_change_availability two_active_store "CP1" 1 "Inoperative" 0).1.status
      = "Rejected" := by decide

/-- C4 (amended: exactly one Active session): a `changeAvailability` request
for connector 0 or 1 while connector 1 has exactly one Active session
answers Scheduled and changes nothing: the store — in particular every
`ConnectorStatus` row and its availability — is returned untouched and no
notification task is spawned. -/
theorem changeAvailability_scheduled_frame (st : Store) (cp_id : String)
    (connector_id : Int) (ty : String) (now : Int) (s : Session)
    (hconn : connector_id = 0 ∨ connector_id = 1)
    (hactive : st.sessions.filter
      (fun s => s.charge_point_id = cp_id ∧ s.connector_id = 1 ∧
        s.status = "Active") = [s]) :
    (on_change_availability st cp_id connector_id ty now).1.status
        = "Scheduled" ∧
    (on_change_availability st cp_id connector_id ty now).2 = st ∧
    (on_change_availability st cp_id connector_id ty now).1.job = none := by
  have hvalid : ¬(connector_id < 0 ∨ connector_id > 1) := by
    rcases hconn with h | h <;> simp [h]
  unfold on_change_availability
  rw [if_neg hvalid, hactive]
  exact ⟨rfl, rfl, rfl⟩

/-- Witness for the amended C4: on the demo store with its single Active
session on connector 1, `changeAvailability(connector=1, Inoperative)` is
Scheduled, the store is unchanged, and no task is spawned. -/
theorem changeAvailability_scheduled_frame_witness :
    (on_change_availability demo_store_started "CP1" 1 "Inoperative" 30).1.status
        = "Scheduled" ∧
    (on_change_availability demo_store_started "CP1" 1 "Inoperative" 30).2
        = demo_store_started ∧
    (on_change_availability demo_store_started "CP1" 1 "Inoperative" 30).1.job
        = none :=
  changeAvailability_scheduled_frame demo_store_started "CP1" 1 "Inoperative"
    30 ⟨2, 100001, "CP1", 1, 1, some 100, none, 0, none, "Active", none, none,
      none⟩ (Or.inr rfl) (by decide)

/-- Updating the availability of one (charge point, connector) pair's latest
row does not disturb the rows of a different pair. -/
theorem set_availability_first_filter_ne (cp_id cp' : String) (t t' : Int)
    (ty : String) (h : ¬(cp' = cp_id ∧ t' = t)) (l : List ConnectorStatus) :
    (set_availability_first cp_id t ty l).filter
        (fun x => x.charge_point_id = cp' ∧ x.connector_id = t')
      = l.filter (fun x => x.charge_point_id = cp' ∧ x.connector_id = t') := by
  induction l with
  | nil => rfl
  | cons a rest ih =>
    unfold set_availability_first
    by_cases ha : a.charge_point_id = cp_id ∧ a.connector_id = t
    · rw [if_pos ha]
      have hna : ¬(a.charge_point_id = cp' ∧ a.connector_id = t') := by
        rintro ⟨h1, h2⟩
        exact h ⟨h1.symm.trans ha.1, h2.symm.trans ha.2⟩
      simp only [List.filter_cons]
      rw [if_neg (by simpa using hna), if_neg (by simpa using hna)]
    · rw [if_neg ha]
      simp only [List.filter_cons, ih]

/-- Updating the availability of the latest row of a pair updates exactly
the head of that pair's filtered rows. -/
theorem set_availability_first_head (cp_id : String) (t : Int) (ty : String)
    (l : List ConnectorStatus) (c : ConnectorStatus)
    (h : (l.filter (fun x => x.charge_point_id = cp_id ∧
        x.connector_id = t)).head? = some c) :
    ((set_availability_first cp_id t ty l).filter
        (fun x => x.charge_point_id = cp_id ∧ x.connector_id = t)).head?
      = some { c with availability := some ty } := by
  induction l with
  | nil => simp at h
  | cons a rest ih =>
    unfold set_availability_first
    by_cases ha : a.charge_point_id = cp_id ∧ a.connector_id = t
    · rw [if_pos ha]
      simp only [List.filter_cons] at h
      rw [if_pos (by simpa using ha)] at h
      rw [List.head?_cons] at h
      injection h with h2
      subst h2
      simp only [List.filter_cons]
      rw [if_pos (by simpa using ha)]
      rfl
    · rw [if_neg ha]
      simp only [List.filter_cons] at h ⊢
      rw [if_neg (by simpa using ha)] at h
      rw [if_neg (by simpa using ha)]
      exact ih h

/-- The per-connector availability write leaves the latest row of every
other (charge point, connector) pair unchanged. -/
theorem apply_availability_latest_ne (st : Store) (cp_id cp' : String)
    (t t' : Int) (ty : String) (now : Int) (h : ¬(cp' = cp_id ∧ t' = t)) :
    latest_connector_status (apply_availability st cp_id t ty now) cp' t'
      = latest_connector_status st cp' t' := by
  unfold apply_availability
  split
  · unfold latest_connector_status
    exact congrArg List.head?
      (set_availability_first_filter_ne cp_id cp' t t' ty h
        st.connector_statuses)
  · unfold latest_connector_status
    simp only [List.filter_cons]
    rw [if_neg ?hng]
    case hng =>
      simp only [decide_eq_true_eq]
      rintro ⟨h1, h2⟩
      exact h ⟨h1.symm, h2.symm⟩

/-- After the per-connector availability write, the pair's latest row exists
and carries the requested availability. -/
theorem apply_availability_latest_self (st : Store) (cp_id : String) (t : Int)
    (ty : String) (now : Int) :
    ∃ cs, latest_connector_status (apply_availability st cp_id t ty now)
        cp_id t = some cs ∧ cs.availability = some ty := by
  unfold apply_availability
  split
  · rename_i c hsome
    refine ⟨{ c with availability := some ty }, ?_, rfl⟩
    unfold latest_connector_status at hsome ⊢
    exact set_availability_first_head cp_id t ty st.connector_statuses c hsome
  · refine ⟨⟨cp_id, t, (if ty = "Operative" then "Available" else "Unavailable"),
      "NoError", now, none, some ty, st.next_row_id⟩, ?_, rfl⟩
    unfold latest_connector_status
    simp only [List.filter_cons]
    rw [if_pos (by simp)]
    rfl

/-- C5: `changeAvailability(connector=0, type=Operative)` with no active
session on connector 1 and at least one target connector not already
Operative answers Accepted, makes the latest-status row of both connectors
0 and 1 carry availability Operative (updating it, or creating one where
none existed), and spawns one task whose outbound traffic is exactly two
StatusNotification messages, each reporting status Available. -/
theorem changeAvailability_operative_updates_both (st : Store)
    (cp_id : String) (now : Int)
    (hactive : st.sessions.filter (fun s => s.charge_point_id = cp_id ∧
        s.connector_id = 1 ∧ s.status = "Active") = [])
    (halready : ∃ t ∈ ([0, 1] : List Int), ∀ cs,
        latest_connector_status st cp_id t = some cs →
          cs.availability ≠ some "Operative") :
    (on_change_availability st cp_id 0 "Operative" now).1.status
        = "Accepted" ∧
    (on_change_availability st cp_id 0 "Operative" now).1.job
        = some ([0, 1], "Operative") ∧
    (∀ t ∈ ([0, 1] : List Int), ∃ cs,
      latest_connector_status
          (on_change_availability st cp_id 0 "Operative" now).2 cp_id t
        = some cs ∧ cs.availability = some "Operative") ∧
    send_availability_status_notifications [0, 1] "Operative"
      = [⟨0, "NoError", "Available", "Connector set to operative"⟩,
         ⟨1, "NoError", "Available", "Connector set to operative"⟩] := by
  have hall : already_in_availability st cp_id "Operative"
      (availability_targets 0) = false := by
    rcases halready with ⟨t, ht, hcs⟩
    unfold already_in_availability
    refine List.all_eq_false.mpr ⟨t, show t ∈ availability_targets 0 from ht, ?_⟩
    cases hl : latest_connector_status st cp_id t with
    | none => simp
    | some cs => simpa using hcs cs hl
  have hres : on_change_availability st cp_id 0 "Operative" now
      = (⟨"Accepted", some ([0, 1], "Operative")⟩,
          apply_availability (apply_availability st cp_id 0 "Operative" now)
            cp_id 1 "Operative" now) := by
    unfold on_change_availability
    rw [if_neg (by decide), hactive]
    simp only [scalarOneOrNone]
    rw [if_neg (by simp [hall])]
    rfl
  rw [hres]
  refine ⟨rfl, rfl, ?_, rfl⟩
  intro t ht
  rcases (by simpa using ht : t = 0 ∨ t = 1) with rfl | rfl
  · rw [apply_availability_latest_ne _ cp_id cp_id 1 0 "Operative" now
      (by simp)]
    exact apply_availability_latest_self st cp_id 0 "Operative" now
  · exact apply_availability_latest_self _ cp_id 1 "Operative" now

/-- Witness for C5: on the demo store (no sessions, no recorded connector
state), the station-wide Operative request updates both connectors and
emits the two Available notifications. -/
theorem changeAvailability_operative_updates_both_witness :
    (on_change_availability demo_store "CP1" 0 "Operative" 7).1.status
        = "Accepted" ∧
    (on_change_availability demo_store "CP1" 0 "Operative" 7).1.job
        = some ([0, 1], "Operative") ∧
    (∀ t ∈ ([0, 1] : List Int), ∃ cs,
      latest_connector_status
          (on_change_availability demo_store "CP1" 0 "Operative" 7).2 "CP1" t
        = some cs ∧ cs.availability = some "Operative") ∧
    send_availability_status_notifications [0, 1] "Operative"
      = [⟨0, "NoError", "Available", "Connector set to operative"⟩,
         ⟨1, "NoError", "Available", "Connector set to operative"⟩] :=
  changeAvailability_operative_updates_both demo_store "CP1" 7 (by decide)
    ⟨0, by decide, fun cs h => Option.noConfusion h⟩

/-- C6: for a known credential (the unique row with that tag string) whose
recorded expiry is before the current time, `resolve` answers Expired with
that exact expiry echoed back, whatever the stored status; in every other
case it passes the stored status through together with the optional expiry
and parent-tag fields. -/
theorem resolve_expired_echoes_expiry (st : Store) (id_tag : String)
    (now : Int) (tag_record : IdTag)
    (hfind : st.id_tags.filter (fun t => t.tag = id_tag) = [tag_record]) :
    (∀ e, tag_record.expiry_date = some e → e < now →
      get_id_tag_info st id_tag now = ⟨"Expired", some e, none⟩) ∧
    ((∀ e, tag_record.expiry_date = some e → ¬e < now) →
      get_id_tag_info st id_tag now =
        ⟨tag_record.status, tag_record.expiry_date,
          tag_record.parent_id_tag⟩) := by
  unfold get_id_tag_info
  rw [hfind]
  simp only [scalarOneOrNone]
  constructor
  · intro e he hlt
    simp only [he]
    rw [if_pos hlt]
  · intro hnot
    cases hx : tag_record.expiry_date with
    | none => simp only [hx]
    | some e =>
      simp only [hx]
      rw [if_neg (hnot e hx)]

/-- A store holding one credential whose expiry (time 50) has passed,
stored status Accepted. -/
def expired_store : Store :=
  { id_tags := [⟨1, "TAGX", "Accepted", some 50, some "PARENT"⟩],
    sessions := [], meter_values := [], connector_statuses := [],
    charge_points := [], next_row_id := 2 }

/-- Witness for C6: at time 100 the credential with expiry 50 resolves to
Expired echoing expiry 50, although its stored status is Accepted. -/
theorem resolve_expired_echoes_expiry_witness :
    get_id_tag_info expired_store "TAGX" 100 = ⟨"Expired", some 50, none⟩ :=
  (resolve_expired_echoes_expiry expired_store "TAGX" 100
    ⟨1, "TAGX", "Accepted", some 50, some "PARENT"⟩ (by decide)).1 50 rfl
    (by decide)

/-- C7: a credential with no row in the store resolves to Invalid, and a
`startTransaction` with it creates no session, leaves the store untouched
and returns transaction id 0 with the Invalid info; more generally, for any
credential whose resolved status is not Accepted, `startTransaction` leaves
the store untouched and returns transaction id 0 with the resolved info. -/
theorem unknown_tag_invalid_no_session (st : Store) (cp_id : String)
    (connector_id : Int) (id_tag : String) (meter_start timestamp : Int)
    (reservation_id : Option Int) (now : Int) (rands : List Int)
    (hnone : st.id_tags.filter (fun t => t.tag = id_tag) = []) :
    get_id_tag_info st id_tag now = ⟨"Invalid", none, none⟩ ∧
    on_start_transaction st cp_id connector_id id_tag meter_start timestamp
        reservation_id now rands
      = some (⟨0, ⟨"Invalid", none, none⟩⟩, st) ∧
    ∀ (st2 : Store) (tag2 : String),
      (get_id_tag_info st2 tag2 now).status ≠ "Accepted" →
      on_start_transaction st2 cp_id connector_id tag2 meter_start timestamp
          reservation_id now rands
        = some (⟨0, get_id_tag_info st2 tag2 now⟩, st2) := by
  have hinv : get_id_tag_info st id_tag now = ⟨"Invalid", none, none⟩ := by
    unfold get_id_tag_info
    rw [hnone]
    rfl
  have hgen : ∀ (st2 : Store) (tag2 : String),
      (get_id_tag_info st2 tag2 now).status ≠ "Accepted" →
      on_start_transaction st2 cp_id connector_id tag2 meter_start timestamp
          reservation_id now rands
        = some (⟨0, get_id_tag_info st2 tag2 now⟩, st2) := by
    intro st2 tag2 hnacc
    unfold on_start_transaction
    rw [if_neg hnacc]
  refine ⟨hinv, ?_, hgen⟩
  rw [hgen st id_tag (by rw [hinv]; decide), hinv]

/-- Witness for C7: the tag NOPE is unknown to the demo store; it resolves
Invalid and starting with it returns id 0 and changes nothing. -/
theorem unknown_tag_invalid_no_session_witness :
    get_id_tag_info demo_store "NOPE" 0 = ⟨"Invalid", none, none⟩ ∧
    on_start_transaction demo_store "CP1" 1 "NOPE" 5 0 none 0 [100001]
      = some (⟨0, ⟨"Invalid", none, none⟩⟩, demo_store) ∧
    ∀ (st2 : Store) (tag2 : String),
      (get_id_tag_info st2 tag2 0).status ≠ "Accepted" →
      on_start_transaction st2 "CP1" 1 tag2 5 0 none 0 [100001]
        = some (⟨0, get_id_tag_info st2 tag2 0⟩, st2) :=
  unknown_tag_invalid_no_session demo_store "CP1" 1 "NOPE" 5 0 none 0 [100001]
    (by decide)

/-- C8: `stopTransaction` looks the session up by transaction id alone: its
outcome is the same whatever charge point issues it, so a charge point other
than the session's owner (here `sr.charge_point_id ≠ cp_id`) still completes
the session; and when no session with the transaction id exists, the
`sessions` table is untouched and a structurally valid acknowledgment (with
the resolved id-tag info if one was supplied) is still returned. -/
theorem stopTransaction_unscoped_lookup (st : Store) (cp_id : String)
    (transaction_id timestamp meter_stop : Int) (id_tag : Option String)
    (reason : Option String) (transaction_data : List MeterValBlock)
    (now : Int) (sr : Session)
    (hfind : st.sessions.filter
      (fun s => s.transaction_id = transaction_id) = [sr])
    (hother : sr.charge_point_id ≠ cp_id) :
    (∀ cp2 : String,
      on_stop_transaction st cp_id transaction_id timestamp meter_stop id_tag
          reason transaction_data now
        = on_stop_transaction st cp2 transaction_id timestamp meter_stop
            id_tag reason transaction_data now) ∧
    ({ sr with meter_stop := some meter_stop,
               stop_timestamp := some timestamp,
               status := "Completed",
               stop_reason := some (reason.getD "Local"),
               energy_consumed :=
                 match sr.meter_start with
                 | some ms => some (((meter_stop - ms : Int) : ℚ) / 1000)
                 | none => sr.energy_consumed }
      ∈ (on_stop_transaction st cp_id transaction_id timestamp meter_stop
          id_tag reason transaction_data now).2.sessions) ∧
    (∀ tid2 : Int,
      st.sessions.filter (fun s => s.transaction_id = tid2) = [] →
      (on_stop_transaction st cp_id tid2 timestamp meter_stop id_tag reason
          transaction_data now).2.sessions = st.sessions ∧
      (on_stop_transaction st cp_id tid2 timestamp meter_stop id_tag reason
          transaction_data now).1
        = ⟨id_tag.map (fun t => get_id_tag_info st t now)⟩) := by
  refine ⟨fun _ => rfl, ?_, ?_⟩
  · exact stop_completes_session st cp_id transaction_id timestamp meter_stop
      id_tag reason transaction_data now sr hfind
  · intro tid2 h2
    unfold on_stop_transaction
    rw [h2]
    exact ⟨rfl, rfl⟩

/-- Witness for C8: charge point CP2 completes the session that CP1 started,
and a stop for the unused id 555 changes no session and still answers. -/
theorem stopTransaction_unscoped_lookup_witness :
    (∀ cp2 : String,
      on_stop_transaction demo_store_started "CP2" 100001 20 1100 none none
          [] 20
        = on_stop_transaction demo_store_started cp2 100001 20 1100 none none
            [] 20) ∧
    ({ id := 2, transaction_id := 100001, charge_point_id := "CP1",
       id_tag_id := 1, connector_id := 1, meter_start := some 100,
       meter_stop := some 1100, start_timestamp := 0,
       stop_timestamp := some 20, status := "Completed",
       stop_reason := some "Local",
       energy_consumed := some (((1100 - 100 : Int) : ℚ) / 1000),
       reservation_id := none }
      ∈ (on_stop_transaction demo_store_started "CP2" 100001 20 1100 none
          none [] 20).2.sessions) ∧
    (∀ tid2 : Int,
      demo_store_started.sessions.filter
        (fun s => s.transaction_id = tid2) = [] →
      (on_stop_transaction demo_store_started "CP2" tid2 20 1100 none none
          [] 20).2.sessions = demo_store_started.sessions ∧
      (on_stop_transaction demo_store_started "CP2" tid2 20 1100 none none
          [] 20).1 = ⟨none⟩) :=
  stopTransaction_unscoped_lookup demo_store_started "CP2" 100001 20 1100
    none none [] 20
    ⟨2, 100001, "CP1", 1, 1, some 100, none, 0, none, "Active", none, none,
      none⟩ (by decide) (by decide)

/-- Auxiliary to C9: a reading-dropping `filterMap` on a batch containing a
dropped reading persists strictly fewer rows than the batch holds. -/
theorem length_filterMap_lt {α β : Type} (f : α → Option β) (l : List α)
    (h : ∃ a ∈ l, f a = none) : (l.filterMap f).length < l.length := by
  induction l with
  | nil => simp at h
  | cons a t ih =>
    rcases h with ⟨b, hb, hfb⟩
    rcases List.mem_cons.mp hb with rfl | hbt
    · rw [List.filterMap_cons, hfb]
      exact Nat.lt_succ_of_le (List.length_filterMap_le f t)
    · rw [List.filterMap_cons]
      cases hfa : f a with
      | none => exact Nat.lt_succ_of_le (List.length_filterMap_le f t)
      | some b2 =>
        simpa [Nat.succ_lt_succ_iff] using ih ⟨b, hbt, hfb⟩

/-- Processing one sampled reading is exactly: coerce the value, and when
that succeeds build the row with the documented defaults. -/
theorem store_sampled_value_eq_map (session_id : Option Nat)
    (meter_timestamp : Int) (default_context : String) (sv : SampledValue) :
    store_sampled_value session_id meter_timestamp default_context sv
      = (floatOfValue sv.value).map (fun q =>
          { session_id := session_id, timestamp := meter_timestamp,
            value := q, unit := sv.unit.getD "Wh",
            measurand := sv.measurand.getD "Energy.Active.Import.Register",
            phase := sv.phase, location := sv.location.getD "Outlet",
            context := sv.context.getD default_context,
            format := sv.format.getD "Raw" }) := by
  unfold store_sampled_value
  cases floatOfValue sv.value <;> rfl

/-- C9: a `MeterValues` batch containing a reading whose value cannot be
coerced still returns the empty acknowledgment, and persists exactly the
coercible readings — one row per coercible reading, built with the
documented defaults, the non-coercible ones skipped (so strictly fewer rows
than readings are appended). -/
theorem meterValues_skips_noncoercible_only (st : Store) (connector_id : Int)
    (block_ts : Option Int) (svs : List SampledValue) (now : Int)
    (hbad : ∃ sv ∈ svs, floatOfValue sv.value = none) :
    (on_meter_values st connector_id none [⟨block_ts, svs⟩] now).1
      = EmptyAck.mk ∧
    (on_meter_values st connector_id none [⟨block_ts, svs⟩] now).2.meter_values
      = st.meter_values ++ svs.filterMap (fun sv =>
          (floatOfValue sv.value).map (fun q =>
            { session_id := none, timestamp := block_ts.getD now, value := q,
              unit := sv.unit.getD "Wh",
              measurand := sv.measurand.getD "Energy.Active.Import.Register",
              phase := sv.phase, location := sv.location.getD "Outlet",
              context := sv.context.getD "Sample.Periodic",
              format := sv.format.getD "Raw" })) ∧
    (svs.filterMap (fun sv =>
        (floatOfValue sv.value).map (fun q =>
          ({ session_id := none, timestamp := block_ts.getD now, value := q,
             unit := sv.unit.getD "Wh",
             measurand := sv.measurand.getD "Energy.Active.Import.Register",
             phase := sv.phase, location := sv.location.getD "Outlet",
             context := sv.context.getD "Sample.Periodic",
             format := sv.format.getD "Raw" } : MeterValue)))).length
      < svs.length := by
  refine ⟨rfl, ?_, ?_⟩
  · show st.meter_values ++
        ([store_meter_block none now "Sample.Periodic" ⟨block_ts, svs⟩]).flatten
      = _
    unfold store_meter_block
    simp only [List.flatten, List.append_nil]
    congr 1
    apply List.filterMap_congr
    intro sv _
    exact store_sampled_value_eq_map none (block_ts.getD now)
      "Sample.Periodic" sv
  · apply length_filterMap_lt
    rcases hbad with ⟨sv, hsv, hval⟩
    exact ⟨sv, hsv, by rw [hval]; rfl⟩

/-- Witness for C9: a three-reading batch whose middle value is the
non-numeric string abc keeps the acknowledgment and persists exactly the
two numeric readings. -/
theorem meterValues_skips_noncoercible_only_witness :
    (on_meter_values demo_store 1 none
        [⟨some 3, [⟨some (.numeric 5), none, none, none, none, none, none⟩,
                   ⟨some (.text "abc"), none, none, none, none, none, none⟩,
                   ⟨some (.numeric 7), none, none, none, none, none, none⟩]⟩]
        9).1 = EmptyAck.mk ∧
    (on_meter_values demo_store 1 none
        [⟨some 3, [⟨some (.numeric 5), none, none, none, none, none, none⟩,
                   ⟨some (.text "abc"), none, none, none, none, none, none⟩,
                   ⟨some (.numeric 7), none, none, none, none, none, none⟩]⟩]
        9).2.meter_values
      = demo_store.meter_values ++
          ([⟨some (.numeric 5), none, none, none, none, none, none⟩,
            ⟨some (.text "abc"), none, none, none, none, none, none⟩,
            ⟨some (.numeric 7), none, none, none, none, none,
              none⟩] : List SampledValue).filterMap (fun sv =>
            (floatOfValue sv.value).map (fun q =>
              { session_id := none, timestamp := (some (3 : Int)).getD 9,
                value := q, unit := sv.unit.getD "Wh",
                measurand :=
                  sv.measurand.getD "Energy.Active.Import.Register",
                phase := sv.phase, location := sv.location.getD "Outlet",
                context := sv.context.getD "Sample.Periodic",
                format := sv.format.getD "Raw" })) ∧
    (([⟨some (.numeric 5), none, none, none, none, none, none⟩,
       ⟨some (.text "abc"), none, none, none, none, none, none⟩,
       ⟨some (.numeric 7), none, none, none, none, none,
         none⟩] : List SampledValue).filterMap (fun sv =>
        (floatOfValue sv.value).map (fun q =>
          ({ session_id := none, timestamp := (some (3 : Int)).getD 9,
             value := q, unit := sv.unit.getD "Wh",
             measurand := sv.measurand.getD "Energy.Active.Import.Register",
             phase := sv.phase, location := sv.location.getD "Outlet",
             context := sv.context.getD "Sample.Periodic",
             format := sv.format.getD "Raw" } : MeterValue)))).length < 3 :=
  meterValues_skips_noncoercible_only demo_store 1 (some 3)
    [⟨some (.numeric 5), none, none, none, none, none, none⟩,
     ⟨some (.text "abc"), none, none, none, none, none, none⟩,
     ⟨some (.numeric 7), none, none, none, none, none, none⟩] 9
    ⟨⟨some (.text "abc"), none, none, none, none, none, none⟩,
      by simp, rfl⟩

/-- C10: a `remoteStart` naming a connector for which no status row was
ever recorded answers Accepted, given a credential resolving to Accepted
and a known, online charge point: the connector-state check only rejects
when a latest recorded status exists outside {Available, Preparing}. -/
theorem remoteStart_unknown_connector_accepted (st : Store) (cp_id : String)
    (id_tag : String) (cid : Int) (now : Int) (cp_name : String)
    (hacc : (get_id_tag_info st id_tag now).status = "Accepted")
    (hcp : st.charge_points.find? (fun c => c.id = cp_id)
      = some ⟨cp_name, true⟩)
    (hnorow : st.connector_statuses.filter
      (fun c => c.charge_point_id = cp_id ∧ c.connector_id = cid) = []) :
    on_remote_start_transaction st cp_id id_tag (some cid) now
      = "Accepted" := by
  unfold on_remote_start_transaction
  rw [if_neg (by simp [hacc]), hcp]
  simp only [hnorow]
  rfl

/-- Witness for C10: on the demo store, whose CP1 is online and has no
recorded connector state at all, a remote start naming connector 3 is
Accepted. -/
theorem remoteStart_unknown_connector_accepted_witness :
    on_remote_start_transaction demo_store "CP1" "TAG1" (some 3) 0
      = "Accepted" :=
  remoteStart_unknown_connector_accepted demo_store "CP1" "TAG1" 3 0 "CP1"
    (by decide) (by decide) (by decide)

end Voltaro
